import Mathlib

/-!
Verification development for the Kusha provider registry and concurrent
multi-model test orchestrator.

The Lean definitions below are a shallow embedding of the Python source:

* `providers/core/provider_manager.py` — the `ProviderManager` class
  (descriptor loading, provider-class/instance caching, API-key caching);
* `src/web/app.py` — the `/api/test-multiple-models` endpoint
  (`test_multiple_models`) and the per-task worker `test_single_model`;
* `providers/ASR/Sarv/sarv_asr.py` — the `SarvASR` adapter;
* `providers/ASR/Google/google_asr.py` — the `GoogleASR` adapter.

Modelling conventions:

* Python dicts keyed by strings become association lists
  `List (String × _)` read through `List.lookup`; inserting a fresh key
  conses it to the front (the code always checks for the key before
  inserting, so no duplicate keys arise on the paths modelled here).
* Object identity (needed for the "identical cached instance" claims) is
  modelled by an allocation counter: every constructor call hands out the
  next natural number, so two instances are "the same object" exactly when
  their tokens are equal.
* Python `float` values (processing times, confidences) are modelled as
  `Rat`; the claims about them are about which values enter an average and
  about division by zero, not about rounding.
* Exceptions are modelled with `Except String` (the message is `str(e)`);
  network I/O performed by an adapter is modelled by passing the outcome of
  the one HTTP call the adapter makes as an explicit argument.
* Python truthiness on an optional string (`if api_key:`) is `Option.elim`
  with the empty string also falsy; see `truthy_str`.
-/

namespace Kusha

/-- Python truthiness of an optional string: `None` and `""` are falsy. -/
def truthy_str (k : Option String) : Bool :=
  match k with
  | none => false
  | some s => s ≠ ""

/-- Python `s.startswith(p)`, on the character lists of the strings. -/
def starts_with_str (s p : String) : Bool :=
  decide (s.data.take p.data.length = p.data)

/-- One entry of a provider `config.json`'s `models` list (the fields the
registry and orchestrator read). -/
structure ModelCfg where
  id : String
  name : String
  supported_languages : List String
  deriving Repr, DecidableEq, Inhabited

/-- The `provider` section of a provider `config.json`.  `requires_api_key`
is optional in the JSON; every read site in the source defaults it to
`True` via `.get('requires_api_key', True)`. -/
structure ProviderSection where
  id : String
  name : String
  requires_api_key : Option Bool
  base_url : String
  deriving Repr, DecidableEq, Inhabited

/-- A parsed provider `config.json` (the fields the modelled code reads). -/
structure ProviderConfig where
  provider : ProviderSection
  models : List ModelCfg
  deriving Repr, DecidableEq, Inhabited

/-! ## ProviderManager state (`providers/core/provider_manager.py`)

`ProviderManager.__init__` sets up four dicts: `providers`,
`_provider_classes_cache`, `_provider_instances_cache`, `_api_keys_cache`.
Adapter instances are represented by allocation tokens (`Nat`) drawn from
`next_instance`; dynamic module import in `_load_provider_class` is
filesystem reflection and is modelled as always succeeding (its failure
raises an exception orthogonal to the caching behaviour studied here). -/

structure PMState where
  providers : List (String × ProviderConfig)
  classes_cache : List String
  instances_cache : List (String × Nat)
  api_keys_cache : List (String × String)
  next_instance : Nat
  deriving Repr, DecidableEq, Inhabited

/-- The instance-cache key of `ProviderManager.get_provider_instance`:
`cache_key = f"{provider_id}_{api_key}" if api_key else provider_id`. -/
def cache_key (provider_id : String) (api_key : Option String) : String :=
  if truthy_str api_key then provider_id ++ "_" ++ api_key.getD "" else provider_id

/-- The class-loading step of `get_provider_instance`
(`if provider_id not in self._provider_classes_cache:
self._load_provider_class(provider_id)`); the dynamic import itself is
modelled as succeeding. -/
def warm_classes (st : PMState) (provider_id : String) : PMState :=
  if st.classes_cache.contains provider_id then st
  else { st with classes_cache := provider_id :: st.classes_cache }

/-- One constructor call `provider_class(config, api_key)` /
`provider_class(config)`: hand out a fresh allocation token and cache it
under `key`. -/
def alloc_instance (st : PMState) (key : String) : Nat × PMState :=
  (st.next_instance,
   { st with
     instances_cache := (key, st.next_instance) :: st.instances_cache,
     next_instance := st.next_instance + 1 })

/-- `ProviderManager.get_provider_instance(provider_id, api_key)`.
Raises (`Except.error`) when the id is not registered; returns the cached
instance for the exact cache key when present; otherwise loads the class
(cached per provider id) and constructs a fresh instance, caching it. -/
def get_provider_instance (st : PMState) (provider_id : String) (api_key : Option String) :
    Except String (Nat × PMState) :=
  if (st.providers.lookup provider_id).isNone then
    Except.error ("Provider " ++ provider_id ++ " not found")
  else
    match st.instances_cache.lookup (cache_key provider_id api_key) with
    | some inst => Except.ok (inst, st)
    | none =>
        Except.ok (alloc_instance (warm_classes st provider_id) (cache_key provider_id api_key))

/-- `ProviderManager.get_cached_api_key(provider_id)`. -/
def get_cached_api_key (st : PMState) (provider_id : String) : Option String :=
  st.api_keys_cache.lookup provider_id

/-- `ProviderManager.clear_api_key_cache(provider_id)` with a specific id:
pops the cached key and removes every instance-cache entry whose key starts
with `f"{provider_id}_"`. -/
def clear_api_key_cache (st : PMState) (provider_id : String) : PMState :=
  { st with
    api_keys_cache := st.api_keys_cache.filter (fun kv => kv.1 ≠ provider_id),
    instances_cache :=
      st.instances_cache.filter (fun kv => ¬ starts_with_str kv.1 (provider_id ++ "_")) }

/-! ## Orchestrator (`src/web/app.py`, `/api/test-multiple-models`)

`test_multiple_models` collects results from `as_completed`, so the result
list of the real endpoint is some permutation of one result per submitted
task; it is modelled here in submission order.  Every property verified
below (result count, aggregate means/counts) is invariant under
permutation of the result list.  The fire-and-forget persistence and
Elasticsearch indexing calls (`create_background_task(...)`) return no data
to this control flow and are elided. -/

/-- One entry of `get_models_for_language`'s output (the fields the
endpoint reads), with the `model['api_key'] = api_key` slot written during
selection. -/
structure ModelInfo where
  id : String
  provider_id : String
  model_id : String
  requires_api_key : Bool
  api_key : Option String := none
  deriving Repr, DecidableEq, Inhabited

/-- `ProviderManager.get_models_for_language(language_code)`: for every
registered provider, every configured model listing the language among its
`supported_languages`, combined id `f"{provider_id}-{model['id']}"`,
`requires_api_key` read with default `True`. -/
def get_models_for_language (providers : List (String × ProviderConfig))
    (language_code : String) : List ModelInfo :=
  providers.flatMap (fun p =>
    (p.2.models.filter (fun m => m.supported_languages.contains language_code)).map (fun m =>
      { id := p.1 ++ "-" ++ m.id,
        provider_id := p.1,
        model_id := m.id,
        requires_api_key := p.2.provider.requires_api_key.getD true }))

/-- Python `s.split(sep)` for a one-character separator, on character
lists: `"".split(',') == ['']`, `"a,".split(',') == ['a', '']`. -/
def py_split (sep : Char) : List Char → List (List Char)
  | [] => [[]]
  | c :: rest =>
      let r := py_split sep rest
      if c = sep then [] :: r
      else (c :: r.headD []) :: r.tail

/-- Python `s.strip()`: drop whitespace from both ends. -/
def py_strip (cs : List Char) : List Char :=
  ((cs.dropWhile Char.isWhitespace).reverse.dropWhile Char.isWhitespace).reverse

/-- `[mid.strip() for mid in model_ids.split(',') if mid.strip()]`. -/
def parse_model_ids (model_ids : String) : List String :=
  ((py_split ',' model_ids.data).map (fun cs => String.mk (py_strip cs))).filter
    (fun s => s ≠ "")

/-- The uniform per-task result envelope (a Python dict in the source;
fields the orchestrator reads via `.get` with these defaults). -/
structure TaskResult where
  provider : String := ""
  provider_id : String := ""
  model_id : String := ""
  language_code : String := ""
  success : Bool := false
  transcription : String := ""
  confidence : Rat := 0
  processing_time : Rat := 0
  error : Option String := none
  deriving Repr, DecidableEq, Inhabited

/-- The selection loop of `test_multiple_models`: keep a catalog model iff
its combined id was requested and (`not model['requires_api_key'] or
api_key`), storing the cached key on the kept model. -/
def select_models (available : List ModelInfo) (selected_ids : List String)
    (cached_key : String → Option String) : List ModelInfo :=
  (available.filter (fun m =>
      selected_ids.contains m.id &&
        (!m.requires_api_key || truthy_str (cached_key m.provider_id)))).map
    (fun m => { m with api_key := cached_key m.provider_id })

/-- The pairs of a batch that survive selection: catalog entries for the
language whose provider is registered (they come from the registry) and
whose credential requirement is satisfied by the API-key cache. -/
def retained_models (providers : List (String × ProviderConfig)) (language : String)
    (selected_ids : List String) (cached_key : String → Option String) : List ModelInfo :=
  select_models (get_models_for_language providers language) selected_ids cached_key

/-- `test_single_model(args)` (`src/web/app.py`): runs the resolved
adapter's `transcribe_audio` and stamps `provider_id`/`model_id` on the
result; any exception raised inside (instance construction or the adapter
call) is caught and turned into a failed result — nothing is raised past
the worker boundary.  `run` abstracts the adapter call: `Except.ok` is the
returned result dict, `Except.error` an exception with its `str(e)`. -/
def test_single_model (run : ModelInfo → String → Except String TaskResult)
    (language : String) (m : ModelInfo) : TaskResult :=
  match run m language with
  | Except.ok r => { r with provider_id := m.provider_id, model_id := m.model_id }
  | Except.error e =>
      { provider_id := m.provider_id, model_id := m.model_id, success := false,
        error := some e, processing_time := 0 }

/-- The session aggregate built at the end of `test_multiple_models`
(the fields of `session_data` the claims concern). -/
structure SessionData where
  total_models : Nat
  successful_models : Nat
  failed_models : Nat
  total_duration : Rat
  avg_processing_time : Rat
  avg_confidence : Rat
  deriving Repr, DecidableEq, Inhabited

/-- `successful_results = [r for r in results if r.get('success')]` etc.,
`avg_* = sum(...) / max(1, len(successful_results))`. -/
def session_of (selected : List ModelInfo) (results : List TaskResult) : SessionData :=
  let successful := results.filter (fun r => r.success)
  let failed := results.filter (fun r => !r.success)
  { total_models := selected.length,
    successful_models := successful.length,
    failed_models := failed.length,
    total_duration := (results.map (fun r => r.processing_time)).sum,
    avg_processing_time :=
      (successful.map (fun r => r.processing_time)).sum / ((max 1 successful.length : Nat) : Rat),
    avg_confidence :=
      (successful.map (fun r => r.confidence)).sum / ((max 1 successful.length : Nat) : Rat) }

/-- `fastapi.HTTPException(status_code, detail)`. -/
structure HTTPError where
  status : Nat
  detail : String
  deriving Repr, DecidableEq, Inhabited

/-- What one call of the endpoint produces: the per-task results and
session id are returned to the caller, `max_workers` is the size the
`ThreadPoolExecutor` was created with (`max_workers=len(test_args)`), and
`session` is the `session_data` aggregate handed to the background
indexer. -/
structure BatchResponse where
  results : List TaskResult
  max_workers : Nat
  session : SessionData
  deriving Repr, DecidableEq, Inhabited

/-- `test_multiple_models` (`src/web/app.py`): parse the requested ids
(rejecting an empty list with HTTP 400), select the testable models
(rejecting an empty selection with HTTP 400), run one task per retained
model on a pool of `len(test_args)` workers, and aggregate. -/
def test_multiple_models (providers : List (String × ProviderConfig)) (language : String)
    (model_ids : String) (cached_key : String → Option String)
    (run : ModelInfo → String → Except String TaskResult) :
    Except HTTPError BatchResponse :=
  let selected_ids := parse_model_ids model_ids
  if selected_ids.isEmpty then
    Except.error { status := 400, detail := "No models selected" }
  else
    let selected := retained_models providers language selected_ids cached_key
    if selected.isEmpty then
      Except.error { status := 400, detail := "No valid models found with API keys" }
    else
      let results := selected.map (test_single_model run language)
      Except.ok
        { results := results,
          max_workers := selected.length,
          session := session_of selected results }

/-! ## Adapters -/

/-- Outcome of the single HTTP call an adapter operation performs: a
response (status code, raw text, parsed JSON body) or a raised exception
(e.g. `requests.exceptions.Timeout` when the call exceeds the `timeout=`
passed to `requests`), carrying its `str(e)`. -/
inductive HttpOutcome (β : Type) where
  | resp (status : Nat) (text : String) (body : β)
  | raised (msg : String)
  deriving Repr, DecidableEq

/-- Fields the Sarv adapter reads from a 200 response body via `.get`. -/
structure SarvBody where
  transcription : Option String
  confidence : Option Rat
  deriving Repr, DecidableEq, Inhabited

/-- `'-' in language_code` conversion of `SarvASR.transcribe_audio`:
`language_code.split('-')[0]`. -/
def sarv_language_code (language_code : String) : String :=
  if language_code.data.contains '-' then
    String.mk ((py_split '-' language_code.data).headD language_code.data)
  else language_code

/-- The `model_preference` field added to the request for Hindi. -/
def sarv_model_preference (language_code model_id : String) : Option String :=
  if language_code = "hi-IN" then
    if model_id = "hindi-specific" then some "hindi-specific"
    else if model_id = "hindi-multilingual" then some "hindi-multilingual"
    else none
  else none

/-- `SarvASR.transcribe_audio` (`providers/ASR/Sarv/sarv_asr.py`),
parametrised by the outcome of the `requests.post(..., timeout=30)` call
and the measured network time.  A 200 response is a success with
`result.get('confidence', 0.95)`; any other status is a failure with error
`f"HTTP {status}: {text}"`; a raised exception (timeouts included) is
caught by the blanket `except` and becomes a failure whose error is
`str(e)` — no distinguished timeout classification exists.  In that branch
the source computes `processing_time` as
`getattr(locals(), 'processing_time', 0.001)`, which always yields the
default `0.001` because a dict has no such attribute. -/
def sarv_transcribe (net : HttpOutcome SarvBody) (network_time : Rat)
    (provider_name model_id language_code : String) : TaskResult :=
  match net with
  | HttpOutcome.resp 200 _ body =>
      { provider := provider_name, model_id := model_id, language_code := language_code,
        success := true,
        transcription := body.transcription.getD "",
        confidence := body.confidence.getD (95 / 100),
        processing_time := network_time, error := none }
  | HttpOutcome.resp status text _ =>
      { provider := provider_name, model_id := model_id, language_code := language_code,
        success := false,
        error := some ("HTTP " ++ toString status ++ ": " ++ text),
        processing_time := network_time }
  | HttpOutcome.raised msg =>
      { provider := provider_name, model_id := model_id, language_code := language_code,
        success := false, error := some msg, processing_time := 1 / 1000 }

/-- The fields of one alternative in a Google recognize response:
optional transcript, optional top-level confidence, per-word optional
confidences. -/
structure GoogleAlt where
  transcript : Option String
  confidence : Option Rat
  words : List (Option Rat)
  deriving Repr, DecidableEq, Inhabited

/-- A Google recognize response body: `results[*].alternatives` plus the
`error.message` field read on non-200 responses (`none` when the error
JSON is missing or malformed, in which case the raw text is used). -/
structure GoogleBody where
  results : List (List GoogleAlt)
  error_message : Option String
  deriving Repr, DecidableEq, Inhabited

/-- `GoogleASR.__init__`'s state (`providers/ASR/Google/google_asr.py`). -/
structure GoogleASR where
  config : ProviderConfig
  api_key : Option String
  base_url : String
  provider_id : String
  provider_name : String
  deriving Repr, DecidableEq, Inhabited

/-- `GoogleASR.__init__(config, api_key=None)`: copies fields out of the
descriptor; performs no network I/O (the embedding takes no
`HttpOutcome`) and is total — construction succeeds with or without a
credential. -/
def google_init (config : ProviderConfig) (api_key : Option String) : GoogleASR :=
  { config := config, api_key := api_key,
    base_url := config.provider.base_url,
    provider_id := config.provider.id,
    provider_name := config.provider.name }

/-- Encoding detection of `GoogleASR.transcribe_audio`. -/
def google_audio_encoding (audio_file_path : String) : String :=
  let a := audio_file_path.toLower
  if a.endsWith ".wav" then "LINEAR16"
  else if a.endsWith ".mp3" then "MP3"
  else if a.endsWith ".flac" then "FLAC"
  else "WEBM_OPUS"

/-- The 200-response parsing of `GoogleASR.transcribe_audio`: first
alternative of the first result; confidence is the mean of the present
per-word confidences when any exist, else `alternative.get('confidence',
0.85)`. -/
def google_parse_success (body : GoogleBody) (provider_name model_id language_code : String)
    (processing_time : Rat) : TaskResult :=
  match body.results with
  | [] =>
      { provider := provider_name, model_id := model_id, language_code := language_code,
        success := false, error := some "No transcription results returned",
        processing_time := processing_time }
  | alts :: _ =>
      match alts with
      | [] =>
          { provider := provider_name, model_id := model_id, language_code := language_code,
            success := false, error := some "No transcription results returned",
            processing_time := processing_time }
      | alt :: _ =>
          let word_confidences := alt.words.filterMap id
          let avg_confidence :=
            if word_confidences.isEmpty then alt.confidence.getD (85 / 100)
            else word_confidences.sum / ((word_confidences.length : Nat) : Rat)
          { provider := provider_name, model_id := model_id, language_code := language_code,
            success := true, transcription := alt.transcript.getD "",
            confidence := avg_confidence, processing_time := processing_time, error := none }

/-- `GoogleASR.transcribe_audio` (`providers/ASR/Google/google_asr.py`).
With a falsy API key (`None` or `""`) it returns a failed result
immediately — a returned value, not a raised exception, and no network
call is made (the `net` outcome is ignored).  Otherwise it is parametrised
by the `requests.post(..., timeout=120)` outcome. -/
def google_transcribe (g : GoogleASR) (net : HttpOutcome GoogleBody) (network_time : Rat)
    (model_id language_code : String) : TaskResult :=
  if ¬ truthy_str g.api_key then
    { provider := g.provider_name, model_id := model_id, language_code := language_code,
      success := false, error := some "API key not provided",
      transcription := "", confidence := 0, processing_time := 0 }
  else
    match net with
    | HttpOutcome.resp 200 _ body =>
        google_parse_success body g.provider_name model_id language_code network_time
    | HttpOutcome.resp status text body =>
        { provider := g.provider_name, model_id := model_id, language_code := language_code,
          success := false,
          error := some ("HTTP " ++ toString status ++ ": " ++ (body.error_message.getD text)),
          processing_time := network_time }
    | HttpOutcome.raised msg =>
        { provider := g.provider_name, model_id := model_id, language_code := language_code,
          success := false, error := some msg, processing_time := 0 }

/-! ## Descriptor loading (`ProviderManager._load_provider`) -/

/-- The raw `provider` section of a descriptor file as JSON: every field
may be absent (an absent field read with `config['provider']['id']` raises
`KeyError`; one read with `.get` takes its default). -/
structure RawProviderSection where
  id : Option String
  name : Option String
  requires_api_key : Option Bool
  provider_type : Option String
  deriving Repr, DecidableEq, Inhabited

/-- A raw descriptor `config.json` as JSON. -/
structure RawConfig where
  provider : Option RawProviderSection
  models : Option (List ModelCfg)
  supported_languages : Option (List String)
  deriving Repr, DecidableEq, Inhabited

/-- One provider directory as `_load_provider` sees it: `config_json` is
`none` when no `config.json` exists, `some none` when the file cannot be
read or parsed as JSON (the raised exception is caught), `some (some c)`
when it parses to `c`; `python_files` are the `*.py` files found by
glob. -/
structure ProviderDirectory where
  name : String
  config_json : Option (Option RawConfig)
  python_files : List String
  deriving Repr, DecidableEq, Inhabited

/-- The entry stored in `self.providers[provider_id]`. -/
structure LoadedProvider where
  provider_id : String
  config : RawConfig
  impl_file : String
  dir_name : String
  ai_type : String
  deriving Repr, DecidableEq, Inhabited

/-- The implementation-file choice of `_load_provider`: first `*.py` file
matching the capability-type or ASR naming patterns, else the first
`*.py` file; `none` only when there are no Python files at all. -/
def pick_impl_file (python_files : List String) (provider_id ai_type : String) :
    Option String :=
  let ai_lower := ai_type.toLower
  match python_files with
  | [] => none
  | f0 :: _ =>
      some ((python_files.find? (fun f =>
          f.endsWith ("_" ++ ai_lower ++ ".py") ||
          f = provider_id ++ "_" ++ ai_lower ++ ".py" ||
          f.endsWith "_asr.py" ||
          f = provider_id ++ "_asr.py")).getD f0)

/-- `ProviderManager._load_provider(provider_path, ai_type)`: skipped
(`none`, with a printed report) when `config.json` is missing or
unreadable, when `config['provider']['id']` raises `KeyError`, or when no
Python implementation file exists; otherwise registered — the display
name, capability type, model list and language list are NOT examined, so
a descriptor with an empty (or absent) `models` or `supported_languages`
is registered all the same.  `provider_type` is defaulted to `ai_type`
when absent.  Always total: a failing descriptor never aborts the load. -/
def load_provider (d : ProviderDirectory) (ai_type : String) : Option LoadedProvider :=
  match d.config_json with
  | none => none
  | some none => none
  | some (some cfg) =>
      match cfg.provider with
      | none => none
      | some prov =>
          match prov.id with
          | none => none
          | some pid =>
              match pick_impl_file d.python_files pid ai_type with
              | none => none
              | some impl =>
                  let prov1 : RawProviderSection :=
                    { prov with provider_type := some (prov.provider_type.getD ai_type) }
                  some { provider_id := pid,
                         config := { cfg with provider := some prov1 },
                         impl_file := impl,
                         dir_name := d.name,
                         ai_type := ai_type }

/-- The provider id `_load_provider` would read out of the descriptor
(`config['provider']['id']`), `none` when any step of that read fails. -/
def parsed_provider_id (d : ProviderDirectory) : Option String :=
  match d.config_json with
  | some (some cfg) => cfg.provider.bind (fun p => p.id)
  | _ => none

/-- `self.providers[provider_id] = {...}` for one directory: register the
descriptor when it loads, keep the registry unchanged when it is
skipped. -/
def register_provider (acc : List (String × LoadedProvider)) (d : ProviderDirectory)
    (ai_type : String) : List (String × LoadedProvider) :=
  match load_provider d ai_type with
  | some lp => (lp.provider_id, lp) :: acc
  | none => acc

/-- The directory scan of `_load_providers` over one capability folder:
every directory is visited in turn, skipped ones leaving the accumulated
registry untouched. -/
def load_providers_from (acc : List (String × LoadedProvider))
    (dirs : List ProviderDirectory) (ai_type : String) : List (String × LoadedProvider) :=
  dirs.foldl (fun a d => register_provider a d ai_type) acc

/-! ## Concrete example inputs

Small concrete registries, manager states and batch inputs used to
instantiate the theorems below and to exhibit counterexamples.  The
`*_st1`-style states are the exact states the modelled operations
produce, spelled out so the equations can be checked by `rfl`. -/

/-- A provider "alpha" that needs no API key and offers model "m" for
English. -/
def c1_cfg_a : ProviderConfig :=
  { provider := { id := "alpha", name := "Alpha", requires_api_key := some false,
                  base_url := "http://alpha" },
    models := [{ id := "m", name := "M", supported_languages := ["en"] }] }

/-- A provider "beta" that requires an API key and offers model "n" for
English. -/
def c1_cfg_b : ProviderConfig :=
  { provider := { id := "beta", name := "Beta", requires_api_key := some true,
                  base_url := "http://beta" },
    models := [{ id := "n", name := "N", supported_languages := ["en"] }] }

def c1_providers : List (String × ProviderConfig) :=
  [("alpha", c1_cfg_a), ("beta", c1_cfg_b)]

/-- No API key is cached for any provider. -/
def c1_key : String → Option String := fun _ => none

/-- Adapter behaviour for the example batch: "alpha" succeeds, everything
else raises. -/
def c1_run : ModelInfo → String → Except String TaskResult := fun m _ =>
  if m.provider_id = "alpha" then
    Except.ok { success := true, transcription := "hello", confidence := 9 / 10,
                processing_time := 2 }
  else Except.error "boom"

/-- A batch of three requested pairs: `alpha-m` (retained), `beta-n`
(dropped: required key absent), `ghost-x` (dropped: unknown provider). -/
def c1_ids : String := "alpha-m,beta-n,ghost-x"

def c1_resp : BatchResponse :=
  match test_multiple_models c1_providers "en" c1_ids c1_key c1_run with
  | Except.ok r => r
  | Except.error _ => default

/-- A registered provider "p" requiring an API key. -/
def c3_cfg : ProviderConfig :=
  { provider := { id := "p", name := "P", requires_api_key := some true, base_url := "" },
    models := [] }

def c3_st0 : PMState :=
  { providers := [("p", c3_cfg)], classes_cache := [], instances_cache := [],
    api_keys_cache := [], next_instance := 0 }

/-- State after `get_provider_instance("p", None)` on `c3_st0`: instance
token 0 cached under the bare key `"p"`. -/
def c3_st1 : PMState :=
  { providers := [("p", c3_cfg)], classes_cache := ["p"], instances_cache := [("p", 0)],
    api_keys_cache := [], next_instance := 1 }

/-- State after `get_provider_instance("p", "k1")` on `c3_st0`. -/
def c3_stA : PMState :=
  { providers := [("p", c3_cfg)], classes_cache := ["p"], instances_cache := [("p_k1", 0)],
    api_keys_cache := [], next_instance := 1 }

/-- State after `get_provider_instance("p", "k2")` on `c3_stA`. -/
def c3_stB : PMState :=
  { providers := [("p", c3_cfg)], classes_cache := ["p"],
    instances_cache := [("p_k2", 1), ("p_k1", 0)],
    api_keys_cache := [], next_instance := 2 }

/-- A registered provider "sarv" requiring no API key. -/
def c5_cfg : ProviderConfig :=
  { provider := { id := "sarv", name := "Sarv", requires_api_key := some false,
                  base_url := "" },
    models := [] }

def c5_st0 : PMState :=
  { providers := [("sarv", c5_cfg)], classes_cache := [], instances_cache := [],
    api_keys_cache := [], next_instance := 0 }

/-- State after `get_provider_instance("sarv", None)` on `c5_st0`:
instance token 0 cached under the bare key `"sarv"`. -/
def c5_st1 : PMState :=
  { providers := [("sarv", c5_cfg)], classes_cache := ["sarv"],
    instances_cache := [("sarv", 0)], api_keys_cache := [], next_instance := 1 }

/-- State after `get_provider_instance("sarv", "k")` on `c5_st0`. -/
def c5_stk : PMState :=
  { providers := [("sarv", c5_cfg)], classes_cache := ["sarv"],
    instances_cache := [("sarv_k", 0)], api_keys_cache := [], next_instance := 1 }

/-- State after invalidating "sarv" on `c5_stk` and resolving
`("sarv", "k")` again: a fresh token 1. -/
def c5_st3 : PMState :=
  { providers := [("sarv", c5_cfg)], classes_cache := ["sarv"],
    instances_cache := [("sarv_k", 1)], api_keys_cache := [], next_instance := 2 }

/-- The `str(e)` of a `requests.exceptions.Timeout` — an arbitrary vendor
message, not a classification. -/
def c4_msg : String :=
  "HTTPSConnectionPool(host=api.sarv.example, port=443): Read timed out. (read timeout=30)"

/-- The result the Sarv adapter produces when the vendor call exceeds the
30-second `requests` timeout. -/
def c4_result : TaskResult :=
  sarv_transcribe (HttpOutcome.raised c4_msg) 0 "Sarv ASR" "multilingual" "hi-IN"

def c6_cfg : ProviderConfig :=
  { provider := { id := "p", name := "P", requires_api_key := some false, base_url := "" },
    models := [{ id := "m", name := "M", supported_languages := ["en"] }] }

def c6_providers : List (String × ProviderConfig) := [("p", c6_cfg)]

def c6_key : String → Option String := fun _ => none

def c6_run : ModelInfo → String → Except String TaskResult := fun _ _ => Except.error "unused"

/-- 51 models of one keyless provider, all supporting English. -/
def c7_cfg : ProviderConfig :=
  { provider := { id := "p", name := "P", requires_api_key := some false, base_url := "" },
    models := (List.range 51).map (fun i =>
      { id := toString i, name := toString i, supported_languages := ["en"] }) }

def c7_providers : List (String × ProviderConfig) := [("p", c7_cfg)]

/-- The request selecting all 51 models: `"p-0,p-1,...,p-50"`. -/
def c7_ids : String :=
  ((List.range 51).map (fun i => "p-" ++ toString i)).foldl
    (fun acc s => if acc = "" then s else acc ++ "," ++ s) ""

def c7_key : String → Option String := fun _ => none

def c7_run : ModelInfo → String → Except String TaskResult := fun _ _ => Except.error "down"

def c7_resp : BatchResponse :=
  match test_multiple_models c7_providers "en" c7_ids c7_key c7_run with
  | Except.ok r => r
  | Except.error _ => default

/-- Two registered providers whose ids collide through the underscore
concatenation: `"a" + "_" + "b_c" == "a_b" + "_" + "c"`. -/
def c10_cfgA : ProviderConfig :=
  { provider := { id := "a", name := "A", requires_api_key := some true, base_url := "" },
    models := [] }

def c10_cfgB : ProviderConfig :=
  { provider := { id := "a_b", name := "AB", requires_api_key := some true, base_url := "" },
    models := [] }

def c10_st0 : PMState :=
  { providers := [("a", c10_cfgA), ("a_b", c10_cfgB)], classes_cache := [],
    instances_cache := [], api_keys_cache := [], next_instance := 0 }

/-- State after `get_provider_instance("a", "b_c")` on `c10_st0`: token 0
cached under `"a_b_c"`. -/
def c10_st1 : PMState :=
  { providers := [("a", c10_cfgA), ("a_b", c10_cfgB)], classes_cache := ["a"],
    instances_cache := [("a_b_c", 0)], api_keys_cache := [], next_instance := 1 }

/-- A raw descriptor with a provider id but no display name, an empty
model list and an empty language list. -/
def c9_raw : RawConfig :=
  { provider := some { id := some "x", name := none, requires_api_key := none,
                       provider_type := none },
    models := some [], supported_languages := some [] }

/-- A provider directory holding `c9_raw` and one implementation file. -/
def c9_dir : ProviderDirectory :=
  { name := "XProvider", config_json := some (some c9_raw), python_files := ["x_asr.py"] }

/-! ## Helper lemmas -/

theorem warm_classes_providers (st : PMState) (pid : String) :
    (warm_classes st pid).providers = st.providers := by
  unfold warm_classes; split <;> rfl

theorem warm_classes_instances (st : PMState) (pid : String) :
    (warm_classes st pid).instances_cache = st.instances_cache := by
  unfold warm_classes; split <;> rfl

theorem warm_classes_api_keys (st : PMState) (pid : String) :
    (warm_classes st pid).api_keys_cache = st.api_keys_cache := by
  unfold warm_classes; split <;> rfl

theorem warm_classes_next (st : PMState) (pid : String) :
    (warm_classes st pid).next_instance = st.next_instance := by
  unfold warm_classes; split <;> rfl

theorem lookup_cons_self {β : Type} (k : String) (v : β) (l : List (String × β)) :
    ((k, v) :: l).lookup k = some v := by
  simp [List.lookup]

theorem lookup_cons_ne {β : Type} {k k1 : String} (v : β) (l : List (String × β))
    (h : k ≠ k1) : ((k1, v) :: l).lookup k = l.lookup k := by
  simp [List.lookup, beq_eq_false_iff_ne.mpr h]

theorem lookup_filter_none {β : Type} (k : String) (q : String × β → Bool)
    (hq : ∀ v : β, q (k, v) = false) :
    ∀ l : List (String × β), (l.filter q).lookup k = none := by
  intro l
  induction l with
  | nil => rfl
  | cons kv tl ih =>
      obtain ⟨k1, v1⟩ := kv
      by_cases hk : k1 = k
      · subst hk
        rw [List.filter_cons_of_neg (by simp [hq v1])]
        exact ih
      · by_cases hqv : q (k1, v1) = true
        · rw [List.filter_cons_of_pos hqv, lookup_cons_ne v1 _ (fun h => hk h.symm)]
          exact ih
        · rw [List.filter_cons_of_neg (by simpa using hqv)]
          exact ih

theorem mem_of_lookup {β : Type} {k : String} {v : β} :
    ∀ {l : List (String × β)}, l.lookup k = some v → (k, v) ∈ l := by
  intro l
  induction l with
  | nil => intro h; simp [List.lookup] at h
  | cons kv tl ih =>
      obtain ⟨k1, v1⟩ := kv
      intro h
      by_cases hk : k = k1
      · subst hk
        rw [lookup_cons_self] at h
        cases h
        exact List.mem_cons_self _ _
      · rw [lookup_cons_ne v1 tl hk] at h
        exact List.mem_cons_of_mem _ (ih h)

theorem lookup_isSome_of_mem {β : Type} {k : String} {v : β} :
    ∀ {l : List (String × β)}, (k, v) ∈ l → (l.lookup k).isSome = true := by
  intro l
  induction l with
  | nil => intro h; simp at h
  | cons kv tl ih =>
      obtain ⟨k1, v1⟩ := kv
      intro h
      by_cases hk : k = k1
      · subst hk
        rw [lookup_cons_self]
        rfl
      · rw [lookup_cons_ne v1 tl hk]
        rcases List.mem_cons.mp h with h1 | h1
        · exact absurd (congrArg Prod.fst h1) hk
        · exact ih h1

theorem string_data_inj {a b : String} (h : a.data = b.data) : a = b := by
  cases a; cases b; cases h; rfl

theorem append_left_cancel_str {p a b : String} (h : p ++ a = p ++ b) : a = b := by
  have hd := congrArg String.data h
  rw [String.data_append, String.data_append] at hd
  exact string_data_inj (List.append_cancel_left hd)

theorem starts_with_append (p q : String) : starts_with_str (p ++ q) p = true := by
  unfold starts_with_str
  rw [String.data_append]
  simp [List.take_left]

theorem cache_key_some (pid c : String) (h : c ≠ "") :
    cache_key pid (some c) = pid ++ "_" ++ c := by
  simp [cache_key, truthy_str, h]

theorem cache_key_falsy (pid : String) :
    cache_key pid (some "") = cache_key pid none := rfl

/-- The shape of a successful `get_provider_instance` call: the provider
is registered, and the call either hit the instance cache (state
unchanged) or allocated the next token (caching it under the key). -/
theorem gpi_ok_cases (st : PMState) (pid : String) (k : Option String) (i : Nat)
    (st1 : PMState) (h : get_provider_instance st pid k = Except.ok (i, st1)) :
    (st.providers.lookup pid).isSome = true ∧
    ((st.instances_cache.lookup (cache_key pid k) = some i ∧ st1 = st) ∨
     (st.instances_cache.lookup (cache_key pid k) = none ∧
      i = st.next_instance ∧
      st1.providers = st.providers ∧
      st1.instances_cache = (cache_key pid k, i) :: st.instances_cache ∧
      st1.api_keys_cache = st.api_keys_cache ∧
      st1.next_instance = st.next_instance + 1)) := by
  unfold get_provider_instance at h
  by_cases hp : (st.providers.lookup pid).isNone
  · rw [if_pos hp] at h
    exact absurd h (by simp)
  · rw [if_neg hp] at h
    refine ⟨?_, ?_⟩
    · cases hcase : st.providers.lookup pid with
      | none => rw [hcase] at hp; exact absurd rfl hp
      | some v => rfl
    · cases hl : st.instances_cache.lookup (cache_key pid k) with
      | some inst =>
          rw [hl] at h
          simp only [Except.ok.injEq, Prod.mk.injEq] at h
          exact Or.inl ⟨congrArg some h.1, h.2.symm⟩
      | none =>
          rw [hl] at h
          simp only [Except.ok.injEq] at h
          have hi := congrArg Prod.fst h
          have hst := congrArg Prod.snd h
          simp only at hi hst
          refine Or.inr ⟨rfl, ?_, ?_, ?_, ?_, ?_⟩
          · rw [← hi]; simp [alloc_instance, warm_classes_next]
          · rw [← hst]; simp [alloc_instance, warm_classes_providers]
          · rw [← hst, ← hi]; simp [alloc_instance, warm_classes_instances, warm_classes_next]
          · rw [← hst]; simp [alloc_instance, warm_classes_api_keys]
          · rw [← hst]; simp [alloc_instance, warm_classes_next]

/-- A cache hit returns the cached token and leaves the state unchanged. -/
theorem gpi_hit (st : PMState) (pid : String) (k : Option String) (i : Nat)
    (hp : (st.providers.lookup pid).isSome = true)
    (hl : st.instances_cache.lookup (cache_key pid k) = some i) :
    get_provider_instance st pid k = Except.ok (i, st) := by
  have hnn : (st.providers.lookup pid).isNone = false := by
    cases hcase : st.providers.lookup pid with
    | none => rw [hcase] at hp; simp at hp
    | some v => rfl
  unfold get_provider_instance
  rw [hnn, hl]
  simp

/-- Resolving a second time with any credential mapping to the same cache
key returns the very same instance token and changes nothing. -/
theorem gpi_same_key (st : PMState) (pid : String) (k k2 : Option String) (i : Nat)
    (st1 : PMState) (hkey : cache_key pid k2 = cache_key pid k)
    (h : get_provider_instance st pid k = Except.ok (i, st1)) :
    get_provider_instance st1 pid k2 = Except.ok (i, st1) := by
  obtain ⟨hp, hc⟩ := gpi_ok_cases st pid k i st1 h
  rcases hc with ⟨hl, hst⟩ | ⟨hl, hi, hprov, hinst, hapi, hnext⟩
  · subst hst
    exact gpi_hit st1 pid k2 i hp (by rw [hkey]; exact hl)
  · refine gpi_hit st1 pid k2 i ?_ ?_
    · rw [hprov]; exact hp
    · rw [hkey, hinst]; exact lookup_cons_self _ _ _

theorem cache_key_inj_cred {pid c1 c2 : String} (h1 : c1 ≠ "") (h2 : c2 ≠ "")
    (h : cache_key pid (some c1) = cache_key pid (some c2)) : c1 = c2 := by
  rw [cache_key_some pid c1 h1, cache_key_some pid c2 h2] at h
  exact append_left_cancel_str h

/-! ## Claim theorems -/

/-- C3 (counterexample): the claim says resolving the same provider with a
*different* credential returns a *distinct* instance.  On the code,
`cache_key = f"{provider_id}_{api_key}" if api_key else provider_id`
treats the absent credential and the empty-string credential alike (both
falsy), so resolving `("p", None)` and then `("p", "")` — two different
credentials — returns the identical cached instance token 0 and does not
construct a second instance. -/
theorem C3_falsy_credential_collision_cex :
    get_provider_instance c3_st0 "p" none = Except.ok (0, c3_st1) ∧
    get_provider_instance c3_st1 "p" (some "") = Except.ok (0, c3_st1) ∧
    (some "" : Option String) ≠ none :=
  ⟨rfl, rfl, by simp⟩

/-- C3 (amended): (1) resolving the same `(provider_id, credential)` pair
twice returns the identical cached instance and leaves the state
unchanged; (2) resolving the same provider with two different *non-empty*
credentials (neither key cached yet) returns distinct instances; (3) the
absent credential and the empty-string credential share the bare
provider-id cache slot, so they return the identical instance; (4)
resolving an id not in the store fails with the unknown-provider error. -/
theorem C3_instance_cache_amended :
    (∀ (st : PMState) (pid : String) (k : Option String) (i : Nat) (st1 : PMState),
      get_provider_instance st pid k = Except.ok (i, st1) →
      get_provider_instance st1 pid k = Except.ok (i, st1)) ∧
    (∀ (st : PMState) (pid c1 c2 : String) (i1 i2 : Nat) (st1 st2 : PMState),
      c1 ≠ "" → c2 ≠ "" → c1 ≠ c2 →
      st.instances_cache.lookup (cache_key pid (some c1)) = none →
      st.instances_cache.lookup (cache_key pid (some c2)) = none →
      get_provider_instance st pid (some c1) = Except.ok (i1, st1) →
      get_provider_instance st1 pid (some c2) = Except.ok (i2, st2) →
      i1 ≠ i2) ∧
    (∀ (st : PMState) (pid : String) (i : Nat) (st1 : PMState),
      get_provider_instance st pid none = Except.ok (i, st1) →
      get_provider_instance st1 pid (some "") = Except.ok (i, st1)) ∧
    (∀ (st : PMState) (pid : String) (k : Option String),
      st.providers.lookup pid = none →
      get_provider_instance st pid k =
        Except.error ("Provider " ++ pid ++ " not found")) := by
  refine ⟨?_, ?_, ?_, ?_⟩
  · intro st pid k i st1 h
    exact gpi_same_key st pid k k i st1 rfl h
  · intro st pid c1 c2 i1 i2 st1 st2 hc1 hc2 hne hl1 hl2 h1 h2
    obtain ⟨hp1, hcase1⟩ := gpi_ok_cases st pid (some c1) i1 st1 h1
    rcases hcase1 with ⟨hl, _⟩ | ⟨_, hi1, hprov, hinst, _, hnext⟩
    · rw [hl1] at hl; exact absurd hl (by simp)
    · obtain ⟨hp2, hcase2⟩ := gpi_ok_cases st1 pid (some c2) i2 st2 h2
      have hkey_ne : cache_key pid (some c2) ≠ cache_key pid (some c1) :=
        fun h => hne (cache_key_inj_cred hc1 hc2 h.symm)
      rcases hcase2 with ⟨hl, _⟩ | ⟨_, hi2, _, _, _, _⟩
      · rw [hinst, lookup_cons_ne _ _ hkey_ne, hl2] at hl
        exact absurd hl (by simp)
      · rw [hi1, hi2, hnext]
        omega
  · intro st pid i st1 h
    exact gpi_same_key st pid none (some "") i st1 rfl h
  · intro st pid k h
    unfold get_provider_instance
    rw [if_pos (by rw [h]; rfl)]

/-- C3 (witness): the amended theorem instantiated on the concrete
manager `c3_st0` holding provider "p": clause 1 at the bare resolve,
clause 2 at credentials `"k1"`/`"k2"` (tokens 0 and 1), clause 4 at the
unknown id "ghost". -/
theorem C3_instance_cache_amended_witness :
    get_provider_instance c3_st1 "p" none = Except.ok (0, c3_st1) ∧
    (0 : Nat) ≠ 1 ∧
    get_provider_instance c3_st0 "ghost" none =
      Except.error ("Provider " ++ "ghost" ++ " not found") :=
  ⟨C3_instance_cache_amended.1 c3_st0 "p" none 0 c3_st1 rfl,
   C3_instance_cache_amended.2.1 c3_st0 "p" "k1" "k2" 0 1 c3_stA c3_stB
     (by decide) (by decide) (by decide) rfl rfl rfl rfl,
   C3_instance_cache_amended.2.2.2 c3_st0 "ghost" none rfl⟩

/-- C5 (counterexample): the claim says `invalidate(provider_id)` removes
*every* cached instance for that provider, including one cached with no
credential, so a later resolve constructs a new instance.  On the code,
`clear_api_key_cache` removes only cache keys starting with
`f"{provider_id}_"`; the bare key `"sarv"` of the instance cached without
a credential survives, `clear_api_key_cache` leaves the state completely
unchanged, and the subsequent resolve returns the pre-invalidation
instance token 0 instead of constructing a new one. -/
theorem C5_bare_instance_survives_cex :
    get_provider_instance c5_st0 "sarv" none = Except.ok (0, c5_st1) ∧
    clear_api_key_cache c5_st1 "sarv" = c5_st1 ∧
    get_provider_instance c5_st1 "sarv" none = Except.ok (0, c5_st1) :=
  ⟨rfl, rfl, rfl⟩

/-- C5 (amended): `invalidate(provider_id)` drops the cached credential
and every cached instance whose cache key starts with
`provider_id + "_"` — that is, every instance cached under a non-empty
credential.  For such an instance the claim's reconstruction guarantee
holds: after invalidation, resolving the same `(provider_id, credential)`
constructs a new instance (a token distinct from the pre-invalidation
one).  The hypothesis on `st` is the allocation invariant (every cached
token was handed out by the counter), which holds for every reachable
state. -/
theorem C5_invalidate_amended (st : PMState) (pid c : String) (i1 : Nat) (st1 : PMState)
    (hc : c ≠ "")
    (hinv : ∀ kv ∈ st.instances_cache, kv.2 < st.next_instance)
    (h1 : get_provider_instance st pid (some c) = Except.ok (i1, st1)) :
    (clear_api_key_cache st1 pid).api_keys_cache.lookup pid = none ∧
    (clear_api_key_cache st1 pid).instances_cache.lookup (cache_key pid (some c)) = none ∧
    (∀ (i2 : Nat) (st3 : PMState),
      get_provider_instance (clear_api_key_cache st1 pid) pid (some c) =
        Except.ok (i2, st3) → i2 ≠ i1) := by
  have hsw : starts_with_str (cache_key pid (some c)) (pid ++ "_") = true := by
    rw [cache_key_some pid c hc]
    exact starts_with_append (pid ++ "_") c
  refine ⟨?_, ?_, ?_⟩
  · exact lookup_filter_none pid _ (fun v => by simp) st1.api_keys_cache
  · exact lookup_filter_none (cache_key pid (some c)) _ (fun v => by simp [hsw])
      st1.instances_cache
  · intro i2 st3 h2
    obtain ⟨hp1, hcase1⟩ := gpi_ok_cases st pid (some c) i1 st1 h1
    have hi1_lt : i1 < st1.next_instance := by
      rcases hcase1 with ⟨hl, hst⟩ | ⟨_, hi1, _, _, _, hnext⟩
      · subst hst; exact hinv _ (mem_of_lookup hl)
      · rw [hi1, hnext]; omega
    obtain ⟨hp2, hcase2⟩ := gpi_ok_cases (clear_api_key_cache st1 pid) pid (some c) i2 st3 h2
    have hclear_lookup :
        (clear_api_key_cache st1 pid).instances_cache.lookup (cache_key pid (some c)) =
          none :=
      lookup_filter_none (cache_key pid (some c)) _ (fun v => by simp [hsw])
        st1.instances_cache
    rcases hcase2 with ⟨hl, _⟩ | ⟨_, hi2, _, _, _, _⟩
    · rw [hclear_lookup] at hl
      exact absurd hl (by simp)
    · have hnext_clear : (clear_api_key_cache st1 pid).next_instance = st1.next_instance :=
        rfl
      rw [hi2, hnext_clear]
      omega

/-- C5 (witness): the amended theorem on the concrete manager `c5_st0`:
resolving `("sarv", "k")` caches token 0 under `"sarv_k"`; invalidating
"sarv" drops that entry and the re-resolve hands out fresh token 1 ≠ 0. -/
theorem C5_invalidate_amended_witness :
    (clear_api_key_cache c5_stk "sarv").api_keys_cache.lookup "sarv" = none ∧
    (clear_api_key_cache c5_stk "sarv").instances_cache.lookup
      (cache_key "sarv" (some "k")) = none ∧
    (1 : Nat) ≠ 0 := by
  have h := C5_invalidate_amended c5_st0 "sarv" "k" 0 c5_stk (by decide)
    (by intro kv hkv; simp [c5_st0] at hkv) rfl
  exact ⟨h.1, h.2.1, h.2.2 1 c5_st3 rfl⟩

/-- C10 (confirmed): the adapter-instance cache key is the bare string
concatenation `provider_id + "_" + api_key`, so whenever
`p1 + "_" + c1 == p2 + "_" + c2` the two distinct (provider, credential)
pairs share one cache slot: resolving the first and then the second
returns the very same cached instance object (and does not touch the
state). -/
theorem C10_cache_key_collision (st : PMState) (p1 p2 c1 c2 : String) (i1 i2 : Nat)
    (st1 st2 : PMState) (hc1 : c1 ≠ "") (hc2 : c2 ≠ "")
    (hkey : p1 ++ "_" ++ c1 = p2 ++ "_" ++ c2)
    (h1 : get_provider_instance st p1 (some c1) = Except.ok (i1, st1))
    (h2 : get_provider_instance st1 p2 (some c2) = Except.ok (i2, st2)) :
    i1 = i2 ∧ st2 = st1 := by
  have hkeq : cache_key p2 (some c2) = cache_key p1 (some c1) := by
    rw [cache_key_some p1 c1 hc1, cache_key_some p2 c2 hc2]
    exact hkey.symm
  obtain ⟨hp1, hcase1⟩ := gpi_ok_cases st p1 (some c1) i1 st1 h1
  obtain ⟨hp2, hcase2⟩ := gpi_ok_cases st1 p2 (some c2) i2 st2 h2
  rcases hcase1 with ⟨hl1, hst1⟩ | ⟨hl1, hi1, _, hinst1, _, _⟩
  · subst hst1
    rcases hcase2 with ⟨hl2, hst2⟩ | ⟨hl2, _, _, _, _, _⟩
    · rw [hkeq, hl1] at hl2
      cases hl2
      exact ⟨rfl, hst2⟩
    · rw [hkeq, hl1] at hl2
      exact absurd hl2 (by simp)
  · rcases hcase2 with ⟨hl2, hst2⟩ | ⟨hl2, _, _, _, _, _⟩
    · rw [hkeq, hinst1, lookup_cons_self] at hl2
      cases hl2
      exact ⟨rfl, hst2⟩
    · rw [hkeq, hinst1, lookup_cons_self] at hl2
      exact absurd hl2 (by simp)

/-- C10 (witness): with providers "a" and "a_b" both registered,
`resolve("a", "b_c")` then `resolve("a_b", "c")` both land on cache key
`"a_b_c"`: the first allocates token 0, the second returns the very same
token (conclusion of the collision theorem at these inputs). -/
theorem C10_cache_key_collision_witness :
    get_provider_instance c10_st0 "a" (some "b_c") = Except.ok (0, c10_st1) ∧
    (0 : Nat) = 0 ∧ c10_st1 = c10_st1 :=
  ⟨rfl,
   (C10_cache_key_collision c10_st0 "a" "a_b" "b_c" "c" 0 0 c10_st1 c10_st1
     (by decide) (by decide) rfl rfl rfl).1,
   (C10_cache_key_collision c10_st0 "a" "a_b" "b_c" "c" 0 0 c10_st1 c10_st1
     (by decide) (by decide) rfl rfl rfl).2⟩

/-- Every entry of the language catalog names a registered provider. -/
theorem mem_models_for_language {providers : List (String × ProviderConfig)}
    {language : String} {m : ModelInfo} (hm : m ∈ get_models_for_language providers language) :
    (providers.lookup m.provider_id).isSome = true := by
  rw [get_models_for_language, List.mem_flatMap] at hm
  obtain ⟨p, hp, hm2⟩ := hm
  obtain ⟨mc, _, rfl⟩ := List.mem_map.mp hm2
  have hpm : (p.1, p.2) ∈ providers := by simpa using hp
  exact lookup_isSome_of_mem hpm

/-- Every retained pair names a registered provider. -/
theorem mem_retained {providers : List (String × ProviderConfig)} {language : String}
    {selected_ids : List String} {cached_key : String → Option String} {m : ModelInfo}
    (hm : m ∈ retained_models providers language selected_ids cached_key) :
    (providers.lookup m.provider_id).isSome = true := by
  rw [retained_models, select_models] at hm
  obtain ⟨m0, hm0, rfl⟩ := List.mem_map.mp hm
  show (providers.lookup m0.provider_id).isSome = true
  exact mem_models_for_language (List.mem_filter.mp hm0).1

/-- The worker stamps the task's provider id on whatever it returns. -/
theorem test_single_model_provider_id (run : ModelInfo → String → Except String TaskResult)
    (language : String) (m : ModelInfo) :
    (test_single_model run language m).provider_id = m.provider_id := by
  unfold test_single_model
  cases run m language <;> rfl

/-- C1 (confirmed): when the endpoint returns a session, the number of
results equals the number of retained pairs — catalog entries for the
language whose combined id was requested, whose provider is registered
(all catalog entries are) and whose credential requirement is satisfied
by the key cache.  Dropped pairs (unknown provider, missing required
key) contribute no result, and every retained pair contributes exactly
one result, success or failure; every returned result names a registered
provider. -/
theorem C1_batch_result_count (providers : List (String × ProviderConfig))
    (language model_ids : String) (cached_key : String → Option String)
    (run : ModelInfo → String → Except String TaskResult) (resp : BatchResponse)
    (h : test_multiple_models providers language model_ids cached_key run = Except.ok resp) :
    resp.results.length =
      (retained_models providers language (parse_model_ids model_ids) cached_key).length ∧
    ∀ r ∈ resp.results, (providers.lookup r.provider_id).isSome = true := by
  simp only [test_multiple_models] at h
  split at h
  · exact absurd h (by simp)
  · split at h
    · exact absurd h (by simp)
    · simp only [Except.ok.injEq] at h
      subst h
      constructor
      · simp [List.length_map]
      · intro r hr
        simp only at hr
        obtain ⟨m, hm, rfl⟩ := List.mem_map.mp hr
        rw [test_single_model_provider_id]
        exact mem_retained hm

/-- C1 (witness): the three-pair batch `c1_ids` against `c1_providers`:
`alpha-m` is retained, `beta-n` is dropped (required key absent),
`ghost-x` is dropped (unknown provider); the session carries exactly one
result. -/
theorem C1_batch_result_count_witness :
    (c1_resp.results.length =
      (retained_models c1_providers "en" (parse_model_ids c1_ids) c1_key).length ∧
     ∀ r ∈ c1_resp.results, (c1_providers.lookup r.provider_id).isSome = true) ∧
    c1_resp.results.length = 1 :=
  ⟨C1_batch_result_count c1_providers "en" c1_ids c1_key c1_run c1_resp rfl, rfl⟩

/-- C2 (confirmed): the session aggregates divide by
`max(1, len(successful_results))`, so `mean_processing_time` and
`mean_confidence` are computed only over the results with
`success == true`, both are exactly `0` when there is no successful
result, and the divisor is strictly positive — no division by zero can
occur (and over `ℚ` no NaN exists; the embedding's totality of `/` is
never exercised at denominator 0). -/
theorem C2_aggregates_over_successes (sel : List ModelInfo) (rs : List TaskResult) :
    (session_of sel rs).avg_processing_time =
      (if (rs.filter (fun r => r.success)).length = 0 then 0
       else ((rs.filter (fun r => r.success)).map (fun r => r.processing_time)).sum /
            (((rs.filter (fun r => r.success)).length : Nat) : Rat)) ∧
    (session_of sel rs).avg_confidence =
      (if (rs.filter (fun r => r.success)).length = 0 then 0
       else ((rs.filter (fun r => r.success)).map (fun r => r.confidence)).sum /
            (((rs.filter (fun r => r.success)).length : Nat) : Rat)) ∧
    (0 : Rat) < ((max 1 (rs.filter (fun r => r.success)).length : Nat) : Rat) := by
  refine ⟨?_, ?_, ?_⟩
  · simp only [session_of]
    by_cases h0 : (rs.filter (fun r => r.success)).length = 0
    · rw [if_pos h0]
      have hnil : rs.filter (fun r => r.success) = [] := List.length_eq_zero.mp h0
      simp [hnil]
    · rw [if_neg h0]
      have hmax : max 1 (rs.filter (fun r => r.success)).length =
          (rs.filter (fun r => r.success)).length := Nat.max_eq_right (by omega)
      rw [hmax]
  · simp only [session_of]
    by_cases h0 : (rs.filter (fun r => r.success)).length = 0
    · rw [if_pos h0]
      have hnil : rs.filter (fun r => r.success) = [] := List.length_eq_zero.mp h0
      simp [hnil]
    · rw [if_neg h0]
      have hmax : max 1 (rs.filter (fun r => r.success)).length =
          (rs.filter (fun r => r.success)).length := Nat.max_eq_right (by omega)
      rw [hmax]
  · have : (0 : Nat) < max 1 (rs.filter (fun r => r.success)).length := by omega
    exact_mod_cast this

/-- C4 (counterexample): the claim says a task exceeding its timeout is
recorded with the distinguished error classification `Timeout`.  On the
code, the `requests` timeout exception is swallowed by the Sarv adapter's
blanket `except Exception as e` and the recorded error is the arbitrary
string `str(e)` — here a realistic `requests` timeout message — not any
distinguished classification. -/
theorem C4_timeout_classification_cex :
    c4_result.success = false ∧
    c4_result.error = some c4_msg ∧
    c4_result.error ≠ some "Timeout" :=
  ⟨rfl, rfl, by decide⟩

/-- C4 (amended): a task whose vendor call raises (timeouts included)
yields a result with `success == false` whose error field is the raw
exception string `str(e)` (no distinguished `Timeout` classification
exists), with the quirky constant processing time `0.001` of the `except`
branch; the failure is returned, never raised past the worker boundary,
and the batch still produces exactly one result per retained pair
whatever each task's outcome. -/
theorem C4_timeout_result_amended :
    (∀ (msg : String) (nt : Rat) (pn mid lc : String),
      (sarv_transcribe (HttpOutcome.raised msg) nt pn mid lc).success = false ∧
      (sarv_transcribe (HttpOutcome.raised msg) nt pn mid lc).error = some msg ∧
      (sarv_transcribe (HttpOutcome.raised msg) nt pn mid lc).processing_time = 1 / 1000) ∧
    (∀ (run : ModelInfo → String → Except String TaskResult) (language : String)
      (selected : List ModelInfo),
      (selected.map (test_single_model run language)).length = selected.length) := by
  refine ⟨?_, ?_⟩
  · intro msg nt pn mid lc
    exact ⟨rfl, rfl, rfl⟩
  · intro run language selected
    exact List.length_map _ _

/-- C6 (counterexample): the claim says an empty selected-pairs list
yields a session with an empty result list, not an error.  The endpoint
instead rejects it: `raise HTTPException(status_code=400, detail="No
models selected")`. -/
theorem C6_empty_pairs_http400_cex :
    test_multiple_models c6_providers "en" "" c6_key c6_run =
      Except.error { status := 400, detail := "No models selected" } ∧
    parse_model_ids "" = [] :=
  ⟨rfl, rfl⟩

/-- C6 (amended): a batch request whose selected-pairs list parses to
empty is rejected with HTTP 400 "No models selected"; no session is
built or returned. -/
theorem C6_empty_pairs_amended (providers : List (String × ProviderConfig))
    (language model_ids : String) (cached_key : String → Option String)
    (run : ModelInfo → String → Except String TaskResult)
    (h : parse_model_ids model_ids = []) :
    test_multiple_models providers language model_ids cached_key run =
      Except.error { status := 400, detail := "No models selected" } := by
  simp [test_multiple_models, h]

/-- C6 (witness): the amended rejection at the concrete empty request. -/
theorem C6_empty_pairs_amended_witness :
    test_multiple_models c1_providers "en" "" c1_key c1_run =
      Except.error { status := 400, detail := "No models selected" } :=
  C6_empty_pairs_amended c1_providers "en" "" c1_key c1_run rfl

/-- C7 (counterexample): the claim says the worker pool is capped at a
configurable maximum concurrency (e.g. 50).  The endpoint creates
`ThreadPoolExecutor(max_workers=len(test_args))` with no cap of any kind:
a batch of 51 retained pairs gets 51 workers, exceeding the claimed
bound. -/
theorem C7_pool_uncapped_cex :
    c7_resp.max_workers = 51 ∧
    c7_resp.results.length = 51 ∧
    50 < c7_resp.max_workers :=
  ⟨rfl, rfl, by decide⟩

/-- C7 (amended): for every batch the endpoint accepts, the worker pool
is sized to exactly the number of retained pairs — one worker per task —
with no maximum cap. -/
theorem C7_pool_sized_to_batch (providers : List (String × ProviderConfig))
    (language model_ids : String) (cached_key : String → Option String)
    (run : ModelInfo → String → Except String TaskResult) (resp : BatchResponse)
    (h : test_multiple_models providers language model_ids cached_key run = Except.ok resp) :
    resp.max_workers = resp.results.length ∧
    resp.max_workers =
      (retained_models providers language (parse_model_ids model_ids) cached_key).length := by
  simp only [test_multiple_models] at h
  split at h
  · exact absurd h (by simp)
  · split at h
    · exact absurd h (by simp)
    · simp only [Except.ok.injEq] at h
      subst h
      exact ⟨by simp [List.length_map], rfl⟩

/-- C7 (witness): the 51-pair batch: pool size equals both the result
count and the retained-pair count. -/
theorem C7_pool_sized_to_batch_witness :
    c7_resp.max_workers = c7_resp.results.length ∧
    c7_resp.max_workers =
      (retained_models c7_providers "en" (parse_model_ids c7_ids) c7_key).length :=
  C7_pool_sized_to_batch c7_providers "en" c7_ids c7_key c7_run c7_resp rfl

/-- C8 (confirmed): `GoogleASR` — an adapter whose provider requires a
credential — constructs successfully with no credential (`google_init` is
total, copies the descriptor fields, and takes no network outcome: no
I/O at construction); the missing credential surfaces only when
`transcribe_audio` is invoked, and then as a returned result with
`success == false` and error "API key not provided", never as a raised
exception, whatever the network would have answered. -/
theorem C8_lazy_credential_failure (cfg : ProviderConfig) (net : HttpOutcome GoogleBody)
    (nt : Rat) (mid lc : String) :
    (google_init cfg none).api_key = none ∧
    (google_init cfg none).base_url = cfg.provider.base_url ∧
    (google_init cfg none).provider_name = cfg.provider.name ∧
    (google_transcribe (google_init cfg none) net nt mid lc).success = false ∧
    (google_transcribe (google_init cfg none) net nt mid lc).error =
      some "API key not provided" :=
  ⟨rfl, rfl, rfl, rfl, rfl⟩

/-- C9 (counterexample): the claim says a descriptor missing a display
name, or with an empty model list or empty language list, is skipped and
not registered.  `_load_provider` validates none of those: this
descriptor — no display name, `models == []`, `supported_languages ==
[]` — is registered all the same. -/
theorem C9_unvalidated_descriptor_cex :
    (load_provider c9_dir "ASR").isSome = true ∧
    c9_raw.models = some [] ∧
    c9_raw.supported_languages = some [] ∧
    c9_raw.provider.bind (fun p => p.name) = none :=
  ⟨rfl, rfl, rfl, rfl⟩

/-- C9 (amended): a descriptor is skipped (reported, never fatal) exactly
when its `config.json` is missing or unreadable, its
`config['provider']['id']` cannot be read, or its directory has no
Python implementation file; the display name, capability type, model
list and language list are not validated, so descriptors with empty
model or language lists are registered.  Loading always continues with
the remaining directories whatever one directory does. -/
theorem C9_load_validation_amended :
    (∀ (d : ProviderDirectory) (ai_type : String),
      ((load_provider d ai_type).isSome = true) ↔
        ((parsed_provider_id d).isSome = true ∧ d.python_files ≠ [])) ∧
    (∀ (acc : List (String × LoadedProvider)) (d : ProviderDirectory)
      (dirs : List ProviderDirectory) (ai_type : String),
      load_providers_from acc (d :: dirs) ai_type =
        load_providers_from (register_provider acc d ai_type) dirs ai_type) := by
  constructor
  · intro d t
    rcases d with ⟨nm, cj, pf⟩
    rcases cj with _ | cj0
    · simp [load_provider, parsed_provider_id]
    rcases cj0 with _ | cfg
    · simp [load_provider, parsed_provider_id]
    cases hcp : cfg.provider with
    | none => simp [load_provider, parsed_provider_id, hcp]
    | some prov =>
        cases hid : prov.id with
        | none => simp [load_provider, parsed_provider_id, hcp, hid]
        | some pid =>
            cases pf with
            | nil => simp [load_provider, parsed_provider_id, pick_impl_file, hcp, hid]
            | cons f0 fs =>
                simp [load_provider, parsed_provider_id, pick_impl_file, hcp, hid]
  · intro acc d dirs t
    rfl

/-- C9 (witness): the amended characterisation applied to the concrete
descriptor `c9_dir` (id present, implementation file present): it is
registered. -/
theorem C9_load_validation_amended_witness :
    (load_provider c9_dir "ASR").isSome = true :=
  (C9_load_validation_amended.1 c9_dir "ASR").mpr ⟨rfl, by decide⟩

end Kusha
